import Mathlib

/-! Shallow embedding of the stroke-prediction core of this repository:
the tabular classifier, explanation and recommendation code of
`backend/ml_model.py`, the image classifier and prediction fusion of
`backend/dl_model.py`, and the fusion glue of the `/api/predict` route in
`backend/app.py`.  Machine floats are modelled as rationals; the trained
scikit-learn and Keras models are opaque oracles supplied as
function-valued fields of the model states.  Fallible code returns
`Except String` mirroring the raised `ValueError`s. -/

namespace Stroke

/-- Risk tiers: the Python strings "Low" / "Medium" / "High". -/
inductive Risk where
  | Low
  | Medium
  | High
deriving DecidableEq

/-- Stroke stages: the Python strings "Stage 1" / "Stage 2" / "Stage 3". -/
inductive Stage where
  | Stage1
  | Stage2
  | Stage3
deriving DecidableEq

/-- Python `x or y` on optional stage values: `None` is falsy and every
stage string actually produced ("Stage 1", ...) is a non-empty, truthy
string. -/
def pyOr (a b : Option Stage) : Option Stage :=
  match a with
  | some x => some x
  | none => b

/-- The 4-tuple `(risk_level, confidence, stage, probabilities)` returned
by both classifiers; `app.py` passes `None` in the fourth slot on the DL
side, hence the optional probability list. -/
structure ClassifierResult where
  risk : Risk
  prob : ℚ
  stage : Option Stage
  probs : Option (List ℚ)
deriving DecidableEq

/-- `risk_scores = dict(Low 0, Medium 1, High 2)` together with the
`.get(risk, 0)` lookups of dl_model.py lines 213-216. -/
def riskScore : Risk → ℚ
  | .Low => 0
  | .Medium => 1
  | .High => 2

/-- The dynamic weights of `combine_predictions` (dl_model.py lines
206-208): each confidence divided by the total confidence, defaulting to
`0.3` / `0.7` when the total is not positive. -/
def fusionWeights (ml_prob dl_prob : ℚ) : ℚ × ℚ :=
  (if 0 < ml_prob + dl_prob then ml_prob / (ml_prob + dl_prob) else 3/10,
   if 0 < ml_prob + dl_prob then dl_prob / (ml_prob + dl_prob) else 7/10)

/-- `combined_score` of dl_model.py line 218. -/
def combinedScore (mlr dlr : ClassifierResult) : ℚ :=
  (fusionWeights mlr.prob dlr.prob).1 * riskScore mlr.risk +
    (fusionWeights mlr.prob dlr.prob).2 * riskScore dlr.risk

/-- `combined_prob` of dl_model.py line 219. -/
def combinedProb (mlr dlr : ClassifierResult) : ℚ :=
  (fusionWeights mlr.prob dlr.prob).1 * mlr.prob +
    (fusionWeights mlr.prob dlr.prob).2 * dlr.prob

/-- Body of `combine_predictions` for two present results (dl_model.py
lines 201-233): threshold rule on the combined score, with the stage
tie-breaks of lines 222-231. -/
def combineBoth (mlr dlr : ClassifierResult) : Risk × ℚ × Option Stage :=
  if combinedScore mlr dlr < 7/10 then
    (Risk.Low, combinedProb mlr dlr, none)
  else if combinedScore mlr dlr < 3/2 then
    (Risk.Medium, combinedProb mlr dlr,
      pyOr mlr.stage (pyOr dlr.stage (some Stage.Stage1)))
  else
    (Risk.High, combinedProb mlr dlr,
      if mlr.prob < dlr.prob then dlr.stage
      else pyOr mlr.stage (pyOr dlr.stage (some Stage.Stage2)))

/-- The possible Python return values of `combine_predictions`: `None`, one
of the inputs passed through unchanged (a 4-tuple), or a fused 3-tuple. -/
inductive CombineResult where
  | absent
  | passthrough (r : ClassifierResult)
  | fused (risk : Risk) (prob : ℚ) (stage : Option Stage)
deriving DecidableEq

/-- `combine_predictions` (dl_model.py lines 196-233).  When either
argument is `None` the code returns
`ml_result if dl_result is None else dl_result`; in particular the pair
`(None, None)` yields `None`. -/
def combine_predictions :
    Option ClassifierResult → Option ClassifierResult → CombineResult
  | ml, none =>
      match ml with
      | none => .absent
      | some mlr => .passthrough mlr
  | none, some dlr => .passthrough dlr
  | some mlr, some dlr =>
      .fused (combineBoth mlr dlr).1 (combineBoth mlr dlr).2.1
        (combineBoth mlr dlr).2.2

/-- The nine tabular feature values of the request form; the two flags are
the boolean fields. -/
structure Features where
  age : ℚ
  heart_rate : ℚ
  bp_systolic : ℚ
  bp_diastolic : ℚ
  blood_sugar : ℚ
  cholesterol : ℚ
  bmi : ℚ
  is_smoker : Bool
  is_alcoholic : Bool
deriving DecidableEq

/-- `feature_names` of `StrokeMLModel` (ml_model.py lines 15-18). -/
def feature_names : List String :=
  ["age", "heart_rate", "bp_systolic", "bp_diastolic",
   "blood_sugar", "cholesterol", "bmi", "is_smoker", "is_alcoholic"]

/-- The row `feature_vector[0]` built at ml_model.py lines 184-194 and
238-248: the nine feature values in order, flags encoded as `1` / `0`. -/
def featureRow (f : Features) : List ℚ :=
  [f.age, f.heart_rate, f.bp_systolic, f.bp_diastolic,
   f.blood_sugar, f.cholesterol, f.bmi,
   if f.is_smoker then 1 else 0, if f.is_alcoholic then 1 else 0]

/-- Opaque stand-in for the trained scikit-learn random forest: `predict`
(a class index in `{0,1,2}`), `predict_proba` (three class probabilities)
and the `feature_importances_` vector. -/
structure ForestOracle where
  classIndex : List ℚ → Fin 3
  classProbs : List ℚ → Fin 3 → ℚ
  importancesRaw : List ℚ

/-- State of `StrokeMLModel`: the optional trained model, the fitted
scaler, and the optional importance mapping restored by `load`. -/
structure StrokeMLModel where
  model : Option ForestOracle
  scaler : List ℚ → List ℚ
  feature_importances : Option (List (String × ℚ))

/-- `risk_levels[int(prediction)]` with `risk_levels = [Low, Medium, High]`
(ml_model.py lines 202-203). -/
def riskOfIndex : Fin 3 → Risk
  | ⟨0, _⟩ => .Low
  | ⟨1, _⟩ => .Medium
  | ⟨2, _⟩ => .High

/-- Stage assignment of ml_model.py lines 205-217. -/
def stageOfIndex (prediction : Fin 3) (max_prob : ℚ) : Option Stage :=
  if prediction = 0 then none
  else if prediction = 1 then some Stage.Stage1
  else if 8/10 < max_prob then some Stage.Stage3
  else if 6/10 < max_prob then some Stage.Stage2
  else some Stage.Stage1

/-- `StrokeMLModel.predict` (ml_model.py lines 174-219): raises
`ValueError("Model not loaded. Call load() first.")` when no model is
loaded; otherwise scales the feature row, asks the forest for the class
index and the class probabilities, and maps them to risk, confidence and
stage. -/
def StrokeMLModel.predict (m : StrokeMLModel) (features : Features) :
    Except String (Risk × ℚ × Option Stage × List ℚ) :=
  match m.model with
  | none => .error "Model not loaded. Call load() first."
  | some forest =>
      let scaled := m.scaler (featureRow features)
      let prediction := forest.classIndex scaled
      let probabilities := forest.classProbs scaled
      let max_prob := probabilities prediction
      .ok (riskOfIndex prediction, max_prob, stageOfIndex prediction max_prob,
           List.ofFn probabilities)

/-- An image file as seen through the external decoder `load_img`: either
it decodes to raw pixel data or decoding throws. -/
inductive Image where
  | valid (pixels : List ℚ)
  | malformed
deriving DecidableEq

/-- `preprocess_image` (dl_model.py lines 155-165): decode and scale to
`[0,1]` by dividing by 255; any decoding exception is caught, logged, and
`None` is returned. -/
def preprocess_image : Image → Option (List ℚ)
  | .valid pixels => some (pixels.map (fun p => p / 255))
  | .malformed => none

/-- Opaque stand-in for the trained Keras classifier: four class
probabilities for a preprocessed image. -/
structure CnnOracle where
  classProbs : List ℚ → Fin 4 → ℚ

/-- State of `StrokeDLModel`: the optional loaded model. -/
structure StrokeDLModel where
  model : Option CnnOracle

/-- `class_mapping` of dl_model.py lines 185-190. -/
def class_mapping : Fin 4 → Risk × Option Stage
  | ⟨0, _⟩ => (.Low, none)
  | ⟨1, _⟩ => (.Medium, some .Stage1)
  | ⟨2, _⟩ => (.High, some .Stage2)
  | ⟨3, _⟩ => (.High, some .Stage3)

/-- `np.argmax` over the four class probabilities: the first index holding
the maximum value. -/
def argmax4 (p : Fin 4 → ℚ) : Fin 4 :=
  [(1 : Fin 4), 2, 3].foldl (fun best i => if p best < p i then i else best) 0

/-- The Python return values of `StrokeDLModel.predict`: the all-`None`
4-tuple `(None, None, None, None)` produced when preprocessing fails, or a
real classification. -/
inductive DLOutput where
  | decodeFailed
  | result (risk : Risk) (confidence : ℚ) (stage : Option Stage) (probs : List ℚ)
deriving DecidableEq

/-- `StrokeDLModel.predict` (dl_model.py lines 167-194). -/
def StrokeDLModel.predict (m : StrokeDLModel) (image : Image) :
    Except String DLOutput :=
  match m.model with
  | none => .error "Model not loaded. Call load() first."
  | some cnn =>
      match preprocess_image image with
      | none => .ok .decodeFailed
      | some img_array =>
          let probabilities := cnn.classProbs img_array
          let predicted_class := argmax4 probabilities
          let confidence := probabilities predicted_class
          .ok (.result (class_mapping predicted_class).1 confidence
                (class_mapping predicted_class).2 (List.ofFn probabilities))

/-- The fusion step of the `/api/predict` route (app.py lines 281-288):
when the DL side produced a risk the two present results are combined,
otherwise the tabular triple is used unchanged. -/
def predict_stroke_fusion (mlRes : Risk × ℚ × Option Stage × List ℚ)
    (dl : DLOutput) : Risk × ℚ × Option Stage :=
  match dl with
  | .decodeFailed => (mlRes.1, mlRes.2.1, mlRes.2.2.1)
  | .result r c s _ =>
      combineBoth ⟨mlRes.1, mlRes.2.1, mlRes.2.2.1, some mlRes.2.2.2⟩
        ⟨r, c, s, none⟩

/-- The `normalized` value computed by the if/elif chain of ml_model.py
lines 262-279 (the final `else 0.5` branch is unreachable for the nine
actual feature names). -/
def normalizedValue (feature_name : String) (v : ℚ) : ℚ :=
  if feature_name = "age" then (v - 20) / 70
  else if feature_name = "is_smoker" ∨ feature_name = "is_alcoholic" then v
  else if feature_name = "heart_rate" then (v - 60) / 60
  else if feature_name = "bp_systolic" then (v - 90) / 90
  else if feature_name = "bp_diastolic" then (v - 60) / 60
  else if feature_name = "blood_sugar" then (v - 70) / 180
  else if feature_name = "cholesterol" then (v - 150) / 150
  else if feature_name = "bmi" then (v - 18) / 22
  else 1/2

/-- `get_feature_importance` (ml_model.py lines 221-227): the stored
mapping when it is truthy (a non-empty dict), else recomputed from the
model, else `None`. -/
def get_feature_importance (m : StrokeMLModel) : Option (List (String × ℚ)) :=
  match m.feature_importances with
  | some fi =>
      if fi.isEmpty then
        match m.model with
        | some forest => some (feature_names.zip forest.importancesRaw)
        | none => none
      else some fi
  | none =>
      match m.model with
      | some forest => some (feature_names.zip forest.importancesRaw)
      | none => none

/-- Descending comparison on contribution entries: the order used to sort
`contributions.items()` by value with `reverse=True`. -/
def contribGe (a b : String × ℚ) : Prop := b.2 ≤ a.2

instance : DecidableRel contribGe :=
  fun a b => inferInstanceAs (Decidable (b.2 ≤ a.2))

instance : IsTotal (String × ℚ) contribGe :=
  ⟨fun a b => le_total b.2 a.2⟩

instance : IsTrans (String × ℚ) contribGe :=
  ⟨fun _ _ _ h1 h2 => le_trans h2 h1⟩

/-- `explain_prediction` (ml_model.py lines 233-289): per-feature
contribution `importance * max(0, normalized)`, renormalised to
percentages when the total is positive, and returned sorted by value in
decreasing order. -/
def explain_prediction (m : StrokeMLModel) (features : Features) :
    Option (List (String × ℚ)) :=
  match m.model with
  | none => none
  | some _ =>
      match get_feature_importance m with
      | none => none
      | some importances =>
          let contributions :=
            (feature_names.zip (featureRow features)).map (fun p =>
              (p.1, ((importances.lookup p.1).getD 0) *
                max 0 (normalizedValue p.1 p.2)))
          let total := (contributions.map Prod.snd).sum
          let contributions :=
            if 0 < total then
              contributions.map (fun p => (p.1, p.2 / total * 100))
            else contributions
          some (List.insertionSort contribGe contributions)

/-- The recommendation message strings of ml_model.py lines 295-326. -/
def msgUrgent1 : String := "⚠️ URGENT: Immediate medical consultation required."

/-- Second urgent notice. -/
def msgUrgent2 : String := "Consider emergency medical evaluation."

/-- Blood-pressure notice. -/
def msgBloodPressure : String :=
  "🩺 High Blood Pressure detected. Monitor regularly and consult cardiologist."

/-- Blood-sugar notice. -/
def msgBloodSugar : String :=
  "🍬 Elevated blood sugar levels. Diabetes screening recommended."

/-- Cholesterol notice. -/
def msgCholesterol : String :=
  "💊 High cholesterol. Consider dietary changes and lipid-lowering medication."

/-- BMI notice. -/
def msgBmi : String :=
  "⚖️ BMI indicates obesity. Weight management program recommended."

/-- Smoking notice. -/
def msgSmoking : String :=
  "🚭 Smoking cessation is crucial. Join a quit-smoking program."

/-- Alcohol notice. -/
def msgAlcohol : String :=
  "🍺 Reduce alcohol consumption. Seek support if needed."

/-- Medium-risk checkup cadence notice. -/
def msgMediumCheckup : String :=
  "📊 Regular health checkups every 3-6 months advised."

/-- Low-risk checkup cadence notice. -/
def msgLowCheckup : String :=
  "✅ Maintain healthy lifestyle. Annual checkups recommended."

/-- First fixed lifestyle notice. -/
def msgExercise : String := "🏃 Regular exercise: 30 minutes daily."

/-- Second fixed lifestyle notice. -/
def msgDiet : String :=
  "🥗 Balanced diet: More fruits, vegetables, and whole grains."

/-- Third fixed lifestyle notice. -/
def msgSleep : String := "😴 Adequate sleep: 7-8 hours per night."

/-- A guarded `recommendations.append(...)` statement: extend the
accumulator when the condition holds, otherwise leave it unchanged. -/
def appendIf (c : Prop) [Decidable c] (recs add : List String) : List String :=
  if c then recs ++ add else recs

/-- `get_recommendations` (ml_model.py lines 291-328): the list built by
the successive conditional `append` statements; the `stage` argument is
accepted but unused by the code. -/
def get_recommendations (features : Features) (risk_level : Risk)
    (stage : Option Stage) : List String :=
  let recommendations : List String := []
  let recommendations :=
    appendIf (risk_level = .High) recommendations [msgUrgent1, msgUrgent2]
  let recommendations :=
    appendIf (140 < features.bp_systolic ∨ 90 < features.bp_diastolic)
      recommendations [msgBloodPressure]
  let recommendations :=
    appendIf (126 < features.blood_sugar) recommendations [msgBloodSugar]
  let recommendations :=
    appendIf (240 < features.cholesterol) recommendations [msgCholesterol]
  let recommendations :=
    appendIf (30 < features.bmi) recommendations [msgBmi]
  let recommendations :=
    appendIf (features.is_smoker = true) recommendations [msgSmoking]
  let recommendations :=
    appendIf (features.is_alcoholic = true) recommendations [msgAlcohol]
  let recommendations :=
    appendIf (risk_level = .Medium) recommendations [msgMediumCheckup]
  let recommendations :=
    appendIf (risk_level = .Low) recommendations [msgLowCheckup]
  recommendations ++ [msgExercise, msgDiet, msgSleep]

/-- The stage invariant of the spec: no stage for Low risk, a stage for
Medium and High risk. -/
def stageOk (risk : Risk) (stage : Option Stage) : Bool :=
  match risk with
  | .Low => stage.isNone
  | .Medium => stage.isSome
  | .High => stage.isSome

/-- Fused triple as described by claim C1, written from the claim text:
weights `conf_A/(conf_A+conf_B)` and `conf_B/(conf_A+conf_B)` with the
0.3 / 0.7 default when the confidences sum to zero, weighted score and
confidence sums, and the three-way threshold rule with its stage
tie-breaks. -/
def claimCombine (a b : ClassifierResult) : Risk × ℚ × Option Stage :=
  let wA := if a.prob + b.prob = 0 then 3/10 else a.prob / (a.prob + b.prob)
  let wB := if a.prob + b.prob = 0 then 7/10 else b.prob / (a.prob + b.prob)
  let score := wA * riskScore a.risk + wB * riskScore b.risk
  let conf := wA * a.prob + wB * b.prob
  if score < 7/10 then (Risk.Low, conf, none)
  else if score < 3/2 then
    (Risk.Medium, conf, pyOr a.stage (pyOr b.stage (some Stage.Stage1)))
  else
    (Risk.High, conf,
      if a.prob < b.prob then b.stage
      else pyOr a.stage (pyOr b.stage (some Stage.Stage2)))

/-- Per-feature normalisation as listed in claim C6 (the two boolean
features normalise to themselves). -/
def claimNormalized (feature_name : String) (v : ℚ) : ℚ :=
  if feature_name = "age" then (v - 20) / 70
  else if feature_name = "heart_rate" then (v - 60) / 60
  else if feature_name = "bp_systolic" then (v - 90) / 90
  else if feature_name = "bp_diastolic" then (v - 60) / 60
  else if feature_name = "blood_sugar" then (v - 70) / 180
  else if feature_name = "cholesterol" then (v - 150) / 150
  else if feature_name = "bmi" then (v - 18) / 22
  else v

/-- Raw per-feature contributions as described by claim C6:
`max(0, normalized) * importance` for each of the nine features. -/
def claimRawContrib (f : Features) (imps : List (String × ℚ)) :
    List (String × ℚ) :=
  (feature_names.zip (featureRow f)).map (fun p =>
    (p.1, max 0 (claimNormalized p.1 p.2) * ((imps.lookup p.1).getD 0)))

/-- Total raw contribution of claim C6. -/
def claimTotal (f : Features) (imps : List (String × ℚ)) : ℚ :=
  ((claimRawContrib f imps).map Prod.snd).sum

/-- The renormalised percentages of claim C6: each raw contribution scaled
proportionally so that the nine values sum to 100. -/
def claimPercentages (f : Features) (imps : List (String × ℚ)) :
    List (String × ℚ) :=
  (claimRawContrib f imps).map (fun p => (p.1, p.2 / claimTotal f imps * 100))

/-- Recommendation list as described by claim C7, written from the claim
text: the conditional notices concatenated in the stated order, with the
three fixed lifestyle notices appended last. -/
def claimRecommendations (features : Features) (risk_level : Risk) :
    List String :=
  (if risk_level = .High then [msgUrgent1, msgUrgent2] else []) ++
  (if 140 < features.bp_systolic ∨ 90 < features.bp_diastolic then
    [msgBloodPressure] else []) ++
  (if 126 < features.blood_sugar then [msgBloodSugar] else []) ++
  (if 240 < features.cholesterol then [msgCholesterol] else []) ++
  (if 30 < features.bmi then [msgBmi] else []) ++
  (if features.is_smoker then [msgSmoking] else []) ++
  (if features.is_alcoholic then [msgAlcohol] else []) ++
  (if risk_level = .Medium then [msgMediumCheckup] else []) ++
  (if risk_level = .Low then [msgLowCheckup] else []) ++
  [msgExercise, msgDiet, msgSleep]

/-- A concrete feature vector (the blood-pressure scenario of the spec). -/
def witnessFeatures : Features := ⟨50, 80, 150, 95, 100, 200, 28, false, false⟩

/-- A concrete forest oracle used to instantiate theorems. -/
def witnessForest : ForestOracle := ⟨fun _ => 1, fun _ _ => 1/3, []⟩

/-- A concrete importance mapping with equal weights. -/
def witnessImps : List (String × ℚ) :=
  feature_names.zip [1/9, 1/9, 1/9, 1/9, 1/9, 1/9, 1/9, 1/9, 1/9]

/-- A concrete loaded tabular model with equal importances. -/
def witnessModel : StrokeMLModel :=
  ⟨some witnessForest, fun v => v, some witnessImps⟩

/-- A concrete loaded tabular model whose importances are all zero. -/
def zeroModel : StrokeMLModel :=
  ⟨some witnessForest, fun v => v,
   some (feature_names.zip [0, 0, 0, 0, 0, 0, 0, 0, 0])⟩

/-- The explanation `zeroModel` produces: all contributions zero, in the
original feature order. -/
def zeroContribs : List (String × ℚ) :=
  [("age", 0), ("heart_rate", 0), ("bp_systolic", 0), ("bp_diastolic", 0),
   ("blood_sugar", 0), ("cholesterol", 0), ("bmi", 0), ("is_smoker", 0),
   ("is_alcoholic", 0)]

/-- A concrete present result for the A side (the spec fusion scenario). -/
def witnessResultA : ClassifierResult := ⟨.Low, 9/10, none, some []⟩

/-- A concrete present result for the B side (the spec fusion scenario). -/
def witnessResultB : ClassifierResult := ⟨.High, 4/10, some .Stage2, none⟩

/-! ## Helper lemmas -/

/-- Risk scores are nonnegative. -/
lemma riskScore_nonneg (r : Risk) : 0 ≤ riskScore r := by
  cases r <;> norm_num [riskScore]

/-- Risk scores are at most two. -/
lemma riskScore_le_two (r : Risk) : riskScore r ≤ 2 := by
  cases r <;> norm_num [riskScore]

/-- A guarded append is the unguarded accumulator followed by a guarded
segment. -/
lemma appendIf_eq (c : Prop) [Decidable c] (l a : List String) :
    appendIf c l a = l ++ if c then a else [] := by
  unfold appendIf
  split_ifs <;> simp

/-- For nonnegative confidences, `combineBoth` computes exactly the fused
triple described by claim C1. -/
lemma combineBoth_eq_claim (a b : ClassifierResult)
    (ha : 0 ≤ a.prob) (hb : 0 ≤ b.prob) :
    combineBoth a b = claimCombine a b := by
  unfold combineBoth claimCombine combinedScore combinedProb fusionWeights
  by_cases h : a.prob + b.prob = 0
  · simp [h]
  · have hpos : 0 < a.prob + b.prob :=
      lt_of_le_of_ne (add_nonneg ha hb) (Ne.symm h)
    simp [h, hpos]

/-- The tabular stage assignment satisfies the stage invariant for every
class index and winning probability. -/
lemma stageOk_stageOfIndex (i : Fin 3) (p : ℚ) :
    stageOk (riskOfIndex i) (stageOfIndex i p) = true := by
  fin_cases i <;>
    simp [riskOfIndex, stageOfIndex, stageOk] <;>
    split_ifs <;> rfl

/-- The DL class mapping satisfies the stage invariant for every class. -/
lemma stageOk_class_mapping : ∀ i : Fin 4,
    stageOk (class_mapping i).1 (class_mapping i).2 = true := by decide

/-- A successful tabular prediction satisfies the stage invariant. -/
lemma ml_predict_stageOk (m : StrokeMLModel) (f : Features)
    (r : Risk) (p : ℚ) (s : Option Stage) (ps : List ℚ)
    (h : m.predict f = Except.ok (r, p, s, ps)) : stageOk r s = true := by
  unfold StrokeMLModel.predict at h
  cases hm : m.model with
  | none => rw [hm] at h; simp at h
  | some forest =>
      rw [hm] at h
      simp only [Except.ok.injEq, Prod.mk.injEq] at h
      obtain ⟨h1, h2, h3, h4⟩ := h
      rw [← h1, ← h3]
      exact stageOk_stageOfIndex _ _

/-- A successful image prediction satisfies the stage invariant. -/
lemma dl_predict_stageOk (d : StrokeDLModel) (img : Image)
    (r : Risk) (c : ℚ) (s : Option Stage) (ps : List ℚ)
    (h : d.predict img = Except.ok (DLOutput.result r c s ps)) :
    stageOk r s = true := by
  unfold StrokeDLModel.predict at h
  cases hd : d.model with
  | none => rw [hd] at h; simp at h
  | some cnn =>
      rw [hd] at h
      cases hp : preprocess_image img with
      | none => rw [hp] at h; simp at h
      | some arr =>
          rw [hp] at h
          simp only [Except.ok.injEq, DLOutput.result.injEq] at h
          obtain ⟨h1, h2, h3, h4⟩ := h
          rw [← h1, ← h3]
          exact stageOk_class_mapping _

/-- The fused triple satisfies the stage invariant whenever the A-side
confidence is nonnegative and the B side satisfies the invariant.  The
only delicate case is High risk with the B side strictly more confident:
there the code copies B's stage verbatim, and B's stage can only be absent
when B's risk is Low, which would cap the combined score below the High
threshold. -/
lemma combineBoth_stageOk (a b : ClassifierResult) (ha : 0 ≤ a.prob)
    (hsb : stageOk b.risk b.stage = true) :
    stageOk (combineBoth a b).1 (combineBoth a b).2.2 = true := by
  unfold combineBoth
  split_ifs with h1 h2 h3
  · rfl
  · cases a.stage <;> cases b.stage <;> rfl
  · rcases hb : b.stage with _ | st
    · exfalso
      cases hbr : b.risk with
      | Medium => rw [hbr, hb] at hsb; simp [stageOk] at hsb
      | High => rw [hbr, hb] at hsb; simp [stageOk] at hsb
      | Low =>
          apply h2
          unfold combinedScore
          rw [hbr, show riskScore Risk.Low = 0 from rfl, mul_zero, add_zero]
          by_cases hpos : 0 < a.prob + b.prob
          · simp only [fusionWeights, if_pos hpos]
            have hlt : a.prob / (a.prob + b.prob) < 1/2 := by
              rw [div_lt_iff₀ hpos]; linarith
            have hge : 0 ≤ a.prob / (a.prob + b.prob) :=
              div_nonneg ha hpos.le
            have hmul : a.prob / (a.prob + b.prob) * riskScore a.risk ≤
                a.prob / (a.prob + b.prob) * 2 :=
              mul_le_mul_of_nonneg_left (riskScore_le_two _) hge
            linarith
          · simp only [fusionWeights, if_neg hpos]
            have h2a := riskScore_le_two a.risk
            have h2b := riskScore_nonneg a.risk
            linarith
    · rfl
  · cases a.stage <;> cases b.stage <;> rfl

/-- Summing `x / S * 100` over a list scales the list's sum. -/
lemma sum_div_mul (l : List ℚ) (S : ℚ) :
    (l.map (fun x => x / S * 100)).sum = l.sum / S * 100 := by
  induction l with
  | nil => simp
  | cons a t ih =>
      simp only [List.map_cons, List.sum_cons, ih]
      ring

/-- The renormalised percentages of claim C6 sum to 100 whenever the raw
total is nonzero. -/
lemma claimPercentages_sum (f : Features) (imps : List (String × ℚ))
    (hT : claimTotal f imps ≠ 0) :
    ((claimPercentages f imps).map Prod.snd).sum = 100 := by
  unfold claimPercentages
  rw [List.map_map]
  have hcomp : (Prod.snd ∘ fun p : String × ℚ =>
      (p.1, p.2 / claimTotal f imps * 100)) =
      (fun x => x / claimTotal f imps * 100) ∘ Prod.snd := rfl
  rw [hcomp, ← List.map_map, sum_div_mul]
  rw [show ((claimRawContrib f imps).map Prod.snd).sum = claimTotal f imps from rfl]
  rw [div_self hT]
  norm_num

/-- A list of nonnegative rationals with zero sum is all zeros. -/
lemma sum_nonneg_all_zero (l : List ℚ) (h : ∀ x ∈ l, 0 ≤ x)
    (hs : l.sum = 0) : ∀ x ∈ l, x = 0 := by
  induction l with
  | nil => simp
  | cons a t ih =>
      have ha : 0 ≤ a := h a (by simp)
      have ht : ∀ x ∈ t, 0 ≤ x := fun x hx => h x (by simp [hx])
      have hts : 0 ≤ t.sum := List.sum_nonneg ht
      simp only [List.sum_cons] at hs
      have ha0 : a = 0 := by linarith
      have hts0 : t.sum = 0 := by linarith
      intro x hx
      rcases List.mem_cons.1 hx with hh | hh
      · rw [hh, ha0]
      · exact ih ht hts0 x hh

/-- Closed form for `explain_prediction` on a loaded model holding the
standard nine-name importance mapping: the claim-side contributions,
renormalised when the raw total is positive, sorted by decreasing value. -/
lemma explain_prediction_closed_form (f : Features) (m : StrokeMLModel)
    (w1 w2 w3 w4 w5 w6 w7 w8 w9 : ℚ) (forest : ForestOracle)
    (hm : m.model = some forest)
    (hfi : m.feature_importances =
      some (feature_names.zip [w1, w2, w3, w4, w5, w6, w7, w8, w9])) :
    explain_prediction m f = some (List.insertionSort contribGe
      (if 0 < claimTotal f (feature_names.zip [w1, w2, w3, w4, w5, w6, w7, w8, w9])
       then claimPercentages f (feature_names.zip [w1, w2, w3, w4, w5, w6, w7, w8, w9])
       else claimRawContrib f (feature_names.zip [w1, w2, w3, w4, w5, w6, w7, w8, w9]))) := by
  have hgfi : get_feature_importance m =
      some (feature_names.zip [w1, w2, w3, w4, w5, w6, w7, w8, w9]) := by
    unfold get_feature_importance
    rw [hfi]
    simp [feature_names]
  unfold explain_prediction
  rw [hm, hgfi]
  simp [claimTotal, claimPercentages, claimRawContrib, claimNormalized,
    normalizedValue, feature_names, featureRow, List.lookup, mul_comm]

/-- All raw contributions are nonnegative when the nine importance weights
are. -/
lemma claimRawContrib_nonneg (f : Features)
    (w1 w2 w3 w4 w5 w6 w7 w8 w9 : ℚ)
    (hw1 : 0 ≤ w1) (hw2 : 0 ≤ w2) (hw3 : 0 ≤ w3) (hw4 : 0 ≤ w4)
    (hw5 : 0 ≤ w5) (hw6 : 0 ≤ w6) (hw7 : 0 ≤ w7) (hw8 : 0 ≤ w8)
    (hw9 : 0 ≤ w9) :
    ∀ p ∈ claimRawContrib f
      (feature_names.zip [w1, w2, w3, w4, w5, w6, w7, w8, w9]), 0 ≤ p.2 := by
  intro p hp
  simp [claimRawContrib, feature_names, featureRow, List.lookup] at hp
  rcases hp with hh | hh | hh | hh | hh | hh | hh | hh | hh <;>
    (rw [hh]; exact mul_nonneg (le_max_left 0 _) (by assumption))

/-! ## Theorems for the claims -/

/-- C2 counterexample: `combine_predictions(None, None)` does not fail — it
silently returns the Python value `None` (`CombineResult.absent`).  The
embedding is total because the Python body has no raise path; the claimed
failure would be an `Except.error`-style outcome, which cannot occur. -/
theorem combine_none_none_counterexample :
    combine_predictions none none = CombineResult.absent := rfl

/-- C2 amended: for the call `combine(None, None)` the code silently
returns `None` (the absent value); it neither raises an error nor returns
a present classifier result. -/
theorem combine_none_none_amended :
    combine_predictions none none = CombineResult.absent ∧
    (∀ r : ClassifierResult,
      combine_predictions none none ≠ CombineResult.passthrough r) ∧
    (∀ (r : Risk) (p : ℚ) (s : Option Stage),
      combine_predictions none none ≠ CombineResult.fused r p s) := by
  refine ⟨rfl, fun r h => ?_, fun r p s h => ?_⟩ <;>
    simp [combine_predictions] at h

/-- C4: for confidences `a, b` with `a ≥ 0`, `b ≥ 0` and `a + b > 0`, the
two fusion weights of `combine_predictions` sum to 1. -/
theorem fusion_weights_sum_to_one (a b : ℚ) (ha : 0 ≤ a) (hb : 0 ≤ b)
    (hab : 0 < a + b) :
    (fusionWeights a b).1 + (fusionWeights a b).2 = 1 := by
  simp only [fusionWeights, if_pos hab]
  rw [div_add_div_same, div_self (ne_of_gt hab)]

/-- Witness for C4 at `a = b = 1/2`. -/
theorem fusion_weights_sum_to_one_witness :
    (0:ℚ) ≤ 1/2 ∧ (0:ℚ) ≤ 1/2 ∧ (0:ℚ) < 1/2 + 1/2 ∧
    (fusionWeights (1/2) (1/2)).1 + (fusionWeights (1/2) (1/2)).2 = 1 :=
  ⟨by norm_num, by norm_num, by norm_num,
   fusion_weights_sum_to_one (1/2) (1/2) (by norm_num) (by norm_num) (by norm_num)⟩

/-- C5: combining a present result with an absent one returns the present
result unchanged, on either side. -/
theorem combine_with_absent_passthrough (r : ClassifierResult) :
    combine_predictions (some r) none = CombineResult.passthrough r ∧
    combine_predictions none (some r) = CombineResult.passthrough r :=
  ⟨rfl, rfl⟩

/-- C9 counterexample: with a loaded model and a malformed image,
`StrokeDLModel.predict` does not fail with any error — the decode failure
is swallowed inside `preprocess_image` and the all-`None` tuple is
returned. -/
theorem dl_predict_malformed_counterexample :
    StrokeDLModel.predict ⟨some ⟨fun _ _ => 0⟩⟩ Image.malformed =
      Except.ok DLOutput.decodeFailed := rfl

/-- C9 amended: on a malformed image with a loaded model, `predict`
returns the all-`None` 4-tuple instead of raising a tagged
`ImageDecodeError` (the exception is caught and only logged inside
`preprocess_image`), and the route's fusion step then proceeds using the
tabular result only, unchanged. -/
theorem dl_predict_malformed_amended (cnn : CnnOracle)
    (mlRes : Risk × ℚ × Option Stage × List ℚ) :
    StrokeDLModel.predict ⟨some cnn⟩ Image.malformed =
      Except.ok DLOutput.decodeFailed ∧
    predict_stroke_fusion mlRes DLOutput.decodeFailed =
      (mlRes.1, mlRes.2.1, mlRes.2.2.1) :=
  ⟨rfl, rfl⟩

/-- C8: both classifiers fail with the model-not-loaded `ValueError` if and
only if no model is present, and no other error string is ever produced. -/
theorem predict_model_not_loaded :
    (∀ (m : StrokeMLModel) (f : Features),
      (m.predict f = Except.error "Model not loaded. Call load() first." ↔
        m.model = none) ∧
      ∀ e, m.predict f = Except.error e →
        e = "Model not loaded. Call load() first.") ∧
    (∀ (d : StrokeDLModel) (img : Image),
      (d.predict img = Except.error "Model not loaded. Call load() first." ↔
        d.model = none) ∧
      ∀ e, d.predict img = Except.error e →
        e = "Model not loaded. Call load() first.") := by
  constructor
  · intro m f
    cases hm : m.model <;> simp [StrokeMLModel.predict, hm]
  · intro d img
    cases hd : d.model with
    | none => simp [StrokeDLModel.predict, hd]
    | some cnn =>
        cases hp : preprocess_image img <;>
          simp [StrokeDLModel.predict, hd, hp]

/-- Witness for C8: an unloaded tabular model raises the model-not-loaded
error on the concrete feature vector. -/
theorem predict_model_not_loaded_witness :
    StrokeMLModel.predict ⟨none, fun v => v, none⟩ witnessFeatures =
      Except.error "Model not loaded. Call load() first." :=
  ((predict_model_not_loaded.1 ⟨none, fun v => v, none⟩ witnessFeatures).1).2 rfl

/-- C1: for two present classifier results with nonnegative confidences,
`combine_predictions` returns exactly the fused triple described by the
claim: score mapping 0/1/2, confidence-proportional weights with the
0.3 / 0.7 default, weighted sums, and the threshold rule with its stage
tie-breaks. -/
theorem combine_matches_claim (a b : ClassifierResult)
    (ha : 0 ≤ a.prob) (hb : 0 ≤ b.prob) :
    combine_predictions (some a) (some b) =
      CombineResult.fused (claimCombine a b).1 (claimCombine a b).2.1
        (claimCombine a b).2.2 := by
  show CombineResult.fused (combineBoth a b).1 (combineBoth a b).2.1
      (combineBoth a b).2.2 = _
  rw [combineBoth_eq_claim a b ha hb]

/-- Witness for C1 at the spec's fusion scenario (A = 0.9 Low, B = 0.4
High). -/
theorem combine_matches_claim_witness :
    0 ≤ witnessResultA.prob ∧ 0 ≤ witnessResultB.prob ∧
    combine_predictions (some witnessResultA) (some witnessResultB) =
      CombineResult.fused (claimCombine witnessResultA witnessResultB).1
        (claimCombine witnessResultA witnessResultB).2.1
        (claimCombine witnessResultA witnessResultB).2.2 :=
  ⟨by norm_num [witnessResultA], by norm_num [witnessResultB],
   combine_matches_claim witnessResultA witnessResultB
     (by norm_num [witnessResultA]) (by norm_num [witnessResultB])⟩

/-- C3: the stage invariant — stage absent exactly for Low risk, present
for Medium and High — holds for every successful tabular prediction, every
successful image prediction, and every fusion of two present results with
confidences in `[0,1]` that themselves satisfy the invariant. -/
theorem stage_invariant :
    (∀ (m : StrokeMLModel) (f : Features) (r : Risk) (p : ℚ)
        (s : Option Stage) (ps : List ℚ),
      m.predict f = Except.ok (r, p, s, ps) → stageOk r s = true) ∧
    (∀ (d : StrokeDLModel) (img : Image) (r : Risk) (c : ℚ)
        (s : Option Stage) (ps : List ℚ),
      d.predict img = Except.ok (DLOutput.result r c s ps) →
        stageOk r s = true) ∧
    (∀ (a b : ClassifierResult) (r : Risk) (c : ℚ) (s : Option Stage),
      0 ≤ a.prob → a.prob ≤ 1 → 0 ≤ b.prob → b.prob ≤ 1 →
      stageOk a.risk a.stage = true → stageOk b.risk b.stage = true →
      combine_predictions (some a) (some b) = CombineResult.fused r c s →
        stageOk r s = true) := by
  refine ⟨ml_predict_stageOk, dl_predict_stageOk,
    fun a b r c s ha ha1 hb hb1 hsa hsb hcomb => ?_⟩
  have hred : combine_predictions (some a) (some b) =
      CombineResult.fused (combineBoth a b).1 (combineBoth a b).2.1
        (combineBoth a b).2.2 := rfl
  rw [hred] at hcomb
  simp only [CombineResult.fused.injEq] at hcomb
  obtain ⟨h1, h2, h3⟩ := hcomb
  rw [← h1, ← h3]
  exact combineBoth_stageOk a b ha hsb

/-- Witness for C3 at the spec's equal-confidence Medium scenario. -/
theorem stage_invariant_witness : stageOk Risk.Medium (some Stage.Stage1) = true :=
  stage_invariant.2.2 ⟨.Medium, 1/2, some .Stage1, none⟩
    ⟨.Medium, 1/2, some .Stage3, none⟩ .Medium (1/2) (some .Stage1)
    (by norm_num) (by norm_num) (by norm_num) (by norm_num) rfl rfl
    (by norm_num [combine_predictions, combineBoth, combinedScore,
      combinedProb, fusionWeights, riskScore, pyOr])

/-- C10: every mapping returned by `explain_prediction` enumerates its
entries in non-increasing order of percentage value. -/
theorem explain_sorted_descending (m : StrokeMLModel) (f : Features)
    (l : List (String × ℚ)) (h : explain_prediction m f = some l) :
    l.Sorted contribGe := by
  unfold explain_prediction at h
  cases hm : m.model with
  | none => rw [hm] at h; simp at h
  | some forest =>
      rw [hm] at h
      cases hfi : get_feature_importance m with
      | none => rw [hfi] at h; simp at h
      | some importances =>
          rw [hfi] at h
          simp only [Option.some.injEq] at h
          rw [← h]
          exact List.sorted_insertionSort contribGe _

/-- Witness for C10 on the all-zero-importance model. -/
theorem explain_sorted_descending_witness : List.Sorted contribGe zeroContribs :=
  explain_sorted_descending zeroModel witnessFeatures zeroContribs (by
    have h1 : zeroModel.model = some witnessForest := rfl
    have h2 : get_feature_importance zeroModel =
        some (feature_names.zip [0, 0, 0, 0, 0, 0, 0, 0, 0]) := rfl
    unfold explain_prediction
    rw [h1, h2]
    simp [feature_names, featureRow, witnessFeatures, normalizedValue,
      zeroContribs, contribGe, List.lookup])

/-- C6: with a loaded model and the standard nine-name importance mapping
with nonnegative weights, `explain_prediction` returns (up to the final
sorting) exactly the claim's per-feature contributions
`max(0, normalized) * importance`, renormalised so that they sum to 100
when the total raw contribution is positive, and all zero when the total
is zero. -/
theorem explain_matches_claim (f : Features) (m : StrokeMLModel)
    (w1 w2 w3 w4 w5 w6 w7 w8 w9 : ℚ) (forest : ForestOracle)
    (hm : m.model = some forest)
    (hfi : m.feature_importances =
      some (feature_names.zip [w1, w2, w3, w4, w5, w6, w7, w8, w9]))
    (hw1 : 0 ≤ w1) (hw2 : 0 ≤ w2) (hw3 : 0 ≤ w3) (hw4 : 0 ≤ w4)
    (hw5 : 0 ≤ w5) (hw6 : 0 ≤ w6) (hw7 : 0 ≤ w7) (hw8 : 0 ≤ w8)
    (hw9 : 0 ≤ w9) :
    ∃ l, explain_prediction m f = some l ∧
      l.Perm (if 0 < claimTotal f (feature_names.zip [w1, w2, w3, w4, w5, w6, w7, w8, w9])
        then claimPercentages f (feature_names.zip [w1, w2, w3, w4, w5, w6, w7, w8, w9])
        else claimRawContrib f (feature_names.zip [w1, w2, w3, w4, w5, w6, w7, w8, w9])) ∧
      (0 < claimTotal f (feature_names.zip [w1, w2, w3, w4, w5, w6, w7, w8, w9]) →
        (l.map Prod.snd).sum = 100) ∧
      (claimTotal f (feature_names.zip [w1, w2, w3, w4, w5, w6, w7, w8, w9]) = 0 →
        ∀ p ∈ l, p.2 = 0) := by
  refine ⟨_, explain_prediction_closed_form f m w1 w2 w3 w4 w5 w6 w7 w8 w9
    forest hm hfi, List.perm_insertionSort contribGe _, fun hT => ?_,
    fun hT p hp => ?_⟩
  · rw [if_pos hT]
    rw [List.Perm.sum_eq ((List.perm_insertionSort contribGe _).map Prod.snd)]
    exact claimPercentages_sum f _ (ne_of_gt hT)
  · rw [if_neg (by simp [hT])] at hp
    have hp' : p ∈ claimRawContrib f
        (feature_names.zip [w1, w2, w3, w4, w5, w6, w7, w8, w9]) :=
      ((List.perm_insertionSort contribGe _).mem_iff).1 hp
    have hz := sum_nonneg_all_zero
      ((claimRawContrib f (feature_names.zip
        [w1, w2, w3, w4, w5, w6, w7, w8, w9])).map Prod.snd)
      (by
        intro x hx
        obtain ⟨q, hq, rfl⟩ := List.mem_map.1 hx
        exact claimRawContrib_nonneg f w1 w2 w3 w4 w5 w6 w7 w8 w9
          hw1 hw2 hw3 hw4 hw5 hw6 hw7 hw8 hw9 q hq)
      hT
    exact hz p.2 (List.mem_map_of_mem Prod.snd hp')

/-- Witness for C6 on a loaded model with all nine importances equal. -/
theorem explain_matches_claim_witness :
    ∃ l, explain_prediction witnessModel witnessFeatures = some l ∧
      l.Perm (if 0 < claimTotal witnessFeatures witnessImps
        then claimPercentages witnessFeatures witnessImps
        else claimRawContrib witnessFeatures witnessImps) ∧
      (0 < claimTotal witnessFeatures witnessImps →
        (l.map Prod.snd).sum = 100) ∧
      (claimTotal witnessFeatures witnessImps = 0 → ∀ p ∈ l, p.2 = 0) :=
  explain_matches_claim witnessFeatures witnessModel
    (1/9) (1/9) (1/9) (1/9) (1/9) (1/9) (1/9) (1/9) (1/9) witnessForest
    rfl rfl (by norm_num) (by norm_num) (by norm_num) (by norm_num)
    (by norm_num) (by norm_num) (by norm_num) (by norm_num) (by norm_num)

/-- C7: for every feature vector, risk tier and stage, the recommendation
list equals the notices of the claim, concatenated in exactly the claimed
order, with the three fixed lifestyle notices last. -/
theorem recommendation_order (f : Features) (r : Risk) (s : Option Stage) :
    get_recommendations f r s = claimRecommendations f r := by
  simp only [get_recommendations, claimRecommendations, appendIf_eq,
    List.nil_append, List.append_assoc]

end Stroke
